import Mathlib

/-!
Shallow embedding of the DynamoDB adapter (`src/DynamoDB.js`).

The adapter is a thin wrapper around a remote client: each operation builds a
parameter record, performs exactly one `client.send`, and normalizes the
outcome into either a plain result or an `HttpError` with an HTTP-like status
code.  We model the remote client as an oracle function from the parameter
record to a `SendResult`; each operation returns the normalized result, the
list of commands it sent, and the diagnostic log lines it would print when the
development-mode flag is on.

Attribute values are forwarded verbatim by the adapter, so they are modelled
by an opaque carrier type.  JavaScript objects are modelled as insertion-
ordered association lists; `Object.keys`, spread (`{...a, ...b}`) and property
assignment are given their JavaScript semantics.
-/

set_option autoImplicit false

/-- Opaque carrier for DynamoDB attribute values (the adapter never inspects
them). -/
abbrev AttrVal := String

/-- A JavaScript object mapping attribute names to attribute values, in
insertion order. -/
abbrev Item := List (String × AttrVal)

/-- An `ExpressionAttributeNames` object: placeholder token to attribute
name. -/
abbrev NameMap := List (String × String)

/-- First-match lookup of key `k` in a JavaScript-object association list. -/
def lookupStr {α : Type} (m : List (String × α)) (k : String) : Option α :=
  (m.find? (fun p => p.1 == k)).map (fun p => p.2)

/-- JavaScript truthiness of a `string | null` value: `null` and the empty
string are falsy. -/
def strTruthy : Option String → Bool
  | none => false
  | some s => !s.isEmpty

/-- `console.log` output produced under a development-mode flag. -/
def logIf (dev : Bool) (msg : String) : List String :=
  if dev then [msg] else []

/-- The error raised by the remote client when a send fails; the adapter only
ever inspects its `name`. -/
structure RemoteError where
  name : String
deriving Repr, DecidableEq

/-- Outcome of `client.send`: the resolved response or a rejection. -/
inductive SendResult (α : Type) where
  | ok (response : α)
  | err (error : RemoteError)
deriving Repr, DecidableEq

/-- The normalized error type (`HttpError` in the source): a message and an
HTTP-like status code. -/
structure HttpError where
  message : String
  statusCode : Nat
deriving Repr, DecidableEq

/-- An exception value live inside a `try` block: either a rejection coming
from the remote client or an `HttpError` thrown by the adapter itself
(distinguished in the source by `instanceof HttpError`). -/
inductive JsError where
  | remote (e : RemoteError)
  | http (e : HttpError)
deriving Repr, DecidableEq

/-- A batch-write request descriptor: a `PutRequest` or a `DeleteRequest`.
Key attribute values may be `undefined` in JavaScript, hence the `Option`. -/
inductive WriteRequest where
  | putReq (item : Item)
  | deleteReq (key : List (String × Option AttrVal))
deriving Repr, DecidableEq

/-- Parameters of a `PutItemCommand` as built by `set`. -/
structure PutItemParams where
  TableName : String
  Item : Item
  ConditionExpression : Option String
deriving Repr, DecidableEq

/-- Parameters of a `GetItemCommand` as built by `get`. -/
structure GetItemParams where
  TableName : String
  Key : Item
deriving Repr, DecidableEq

/-- The per-table request object of a `BatchGetItemCommand` as built by
`batchGet`: the keys to fetch, plus the optional projection expression and
its synthesized attribute names. -/
structure BatchGetTableRequest where
  Keys : List Item
  ProjectionExpression : Option String
  ExpressionAttributeNames : Option NameMap
deriving Repr, DecidableEq

/-- Parameters of a `BatchGetItemCommand` as built by `batchGet`. -/
structure BatchGetParams where
  RequestItems : List (String × BatchGetTableRequest)
deriving Repr, DecidableEq

/-- Parameters of a `BatchWriteItemCommand` as built by `batchWrite`. -/
structure BatchWriteParams where
  RequestItems : List (String × List WriteRequest)
deriving Repr, DecidableEq

/-- Parameters of an `UpdateItemCommand` as built by `update`. -/
structure UpdateParams where
  TableName : String
  Key : Item
  UpdateExpression : String
  ExpressionAttributeNames : NameMap
  ExpressionAttributeValues : Item
  ReturnValues : String
  ConditionExpression : Option String
deriving Repr, DecidableEq

/-- Parameters of a `DeleteItemCommand` as built by `delete`. -/
structure DeleteParams where
  TableName : String
  Key : Item
  ConditionExpression : Option String
deriving Repr, DecidableEq

/-- Parameters of a `QueryCommand` as built by `query` / `queryByGSI`. -/
structure QueryParams where
  TableName : String
  IndexName : Option String
  KeyConditionExpression : String
  ExpressionAttributeNames : Option NameMap
  ExpressionAttributeValues : Item
  FilterExpression : Option String
deriving Repr, DecidableEq

/-- Parameters of a `ScanCommand` as built by `scan` / `clearTable`. -/
structure ScanParams where
  TableName : String
  FilterExpression : Option String
  ExpressionAttributeValues : Option Item
  ExpressionAttributeNames : Option NameMap
deriving Repr, DecidableEq

/-- Response of a `GetItemCommand`; `Item` is absent when no item matched. -/
structure GetItemResponse where
  Item : Option Item
deriving Repr, DecidableEq

/-- Response of a `BatchGetItemCommand`; `Responses` maps a table name to
the list of items fetched from it. -/
structure BatchGetResponse where
  Responses : List (String × List Item)
deriving Repr, DecidableEq

/-- Response of a `BatchWriteItemCommand`; `UnprocessedItems` maps a table
name to the requests the service did not process. -/
structure BatchWriteResponse where
  UnprocessedItems : List (String × List WriteRequest)
deriving Repr, DecidableEq

/-- Response of an `UpdateItemCommand`. -/
structure UpdateItemResponse where
  Attributes : Option Item
deriving Repr, DecidableEq

/-- Response of a `QueryCommand`. -/
structure QueryResponse where
  Items : List Item
deriving Repr, DecidableEq

/-- Response of a `ScanCommand`. -/
structure ScanResponse where
  Items : List Item
deriving Repr, DecidableEq

/-- A command sent through `client.send`, recorded for the operation
traces. -/
inductive Command where
  | putItem (p : PutItemParams)
  | getItem (p : GetItemParams)
  | batchGetItem (p : BatchGetParams)
  | batchWriteItem (p : BatchWriteParams)
  | queryCmd (p : QueryParams)
  | scanCmd (p : ScanParams)
  | updateItem (p : UpdateParams)
  | deleteItem (p : DeleteParams)
deriving Repr, DecidableEq

/-- Result of running one adapter operation: the normalized outcome, the
commands sent to the remote client in order, and the diagnostic log lines. -/
structure OpResult (α : Type) where
  result : Except HttpError α
  sent : List Command
  logs : List String

/-- The `params` object built by `DynamoDB.set`: the condition expression is
attached only when truthy. -/
def DynamoDB.set.paramsOf (table : String) (item : Item) (condition : Option String) :
    PutItemParams :=
  { TableName := table
    Item := item
    ConditionExpression := if strTruthy condition then condition else none }

/-- `DynamoDB.set`: put an item; on success return the item as given; a
`ConditionalCheckFailedException` rejection becomes a 409, any other
rejection a 500. -/
def DynamoDB.set (dev : Bool) (table : String) (item : Item) (condition : Option String)
    (send : PutItemParams → SendResult Unit) : OpResult Item :=
  let params := DynamoDB.set.paramsOf table item condition
  match send params with
  | SendResult.ok _ => ⟨Except.ok item, [Command.putItem params], []⟩
  | SendResult.err e =>
    if e.name = "ConditionalCheckFailedException" then
      ⟨Except.error ⟨"Item already exists in database", 409⟩, [Command.putItem params],
        logIf dev "Item already exists in database"⟩
    else
      ⟨Except.error ⟨"Error setting item in database", 500⟩, [Command.putItem params],
        logIf dev "Error setting item in database: "⟩

/-- The `params` object built by `DynamoDB.get`. -/
def DynamoDB.get.paramsOf (table : String) (keys : Item) : GetItemParams :=
  { TableName := table, Key := keys }

/-- Body of the `try` block of `DynamoDB.get`: a rejection of the send
escapes as a remote error; a response without an item raises the 404
`HttpError` (with its dev log line); otherwise the item is returned. -/
def DynamoDB.get.tryBody (dev : Bool) (res : SendResult GetItemResponse) :
    Except JsError Item × List String :=
  match res with
  | SendResult.err e => (Except.error (JsError.remote e), [])
  | SendResult.ok r =>
    match r.Item with
    | none =>
      (Except.error (JsError.http ⟨"Item not found in database", 404⟩),
        logIf dev "Item not found in database")
    | some item => (Except.ok item, [])

/-- The `catch` block of `DynamoDB.get`: an `HttpError` is rethrown
unchanged (`instanceof HttpError`); anything else becomes a 500. -/
def DynamoDB.get.handleCatch : JsError → HttpError
  | JsError.http h => h
  | JsError.remote _ => ⟨"Error getting item from database", 500⟩

/-- `DynamoDB.get`: fetch an item by key; absent item → 404 (propagated
unchanged through the catch), remote failure → 500. -/
def DynamoDB.get (dev : Bool) (table : String) (keys : Item)
    (send : GetItemParams → SendResult GetItemResponse) : OpResult Item :=
  let params := DynamoDB.get.paramsOf table keys
  match DynamoDB.get.tryBody dev (send params) with
  | (Except.ok item, logs) => ⟨Except.ok item, [Command.getItem params], logs⟩
  | (Except.error e, logs) =>
    ⟨Except.error (DynamoDB.get.handleCatch e), [Command.getItem params],
      logs ++ logIf dev "Error getting item from database: "⟩

/-- The `params` object built by `DynamoDB.batchGet`: the keys to fetch
under the table name; when the projection is truthy, it is split on commas,
each attribute is trimmed, and the placeholder `"#" ++ attr` is joined into
the projection expression and mapped to `attr` in the synthesized attribute
names. -/
def DynamoDB.batchGet.paramsOf (table : String) (keys : List Item)
    (projection : Option String) : BatchGetParams :=
  let base : BatchGetTableRequest :=
    { Keys := keys, ProjectionExpression := none, ExpressionAttributeNames := none }
  if strTruthy projection then
    let attrs := (projection.getD "").splitOn ","
    let placeholders := attrs.map (fun attr => "#" ++ attr.trim)
    let attributeNames := attrs.map (fun attr => ("#" ++ attr.trim, attr.trim))
    { RequestItems := [(table,
        { base with
          ProjectionExpression := some (String.intercalate ", " placeholders)
          ExpressionAttributeNames := some attributeNames })] }
  else
    { RequestItems := [(table, base)] }

/-- `DynamoDB.batchGet`: one `BatchGetItemCommand`; on success returns
`res.Responses[table]` (absent table → `undefined`, modelled as `none`); any
remote failure becomes a 500. -/
def DynamoDB.batchGet (dev : Bool) (table : String) (keys : List Item)
    (projection : Option String)
    (send : BatchGetParams → SendResult BatchGetResponse) :
    OpResult (Option (List Item)) :=
  let params := DynamoDB.batchGet.paramsOf table keys projection
  match send params with
  | SendResult.ok res =>
    ⟨Except.ok (lookupStr res.Responses table), [Command.batchGetItem params], []⟩
  | SendResult.err _ =>
    ⟨Except.error ⟨"Error getting batch items from database", 500⟩,
      [Command.batchGetItem params],
      logIf dev "Error getting batch items from database: "⟩

/-- The `params` object built by `DynamoDB.batchWrite`:
`{ RequestItems: { [table]: requests } }`. -/
def DynamoDB.batchWrite.paramsOf (table : String) (requests : List WriteRequest) :
    BatchWriteParams :=
  { RequestItems := [(table, requests)] }

/-- Body of the `try` block of `DynamoDB.batchWrite`: a rejection escapes as
a remote error; a response with an `UnprocessedItems` entry for the table
raises the 500 `HttpError` (with its dev log line); otherwise the raw
response is returned (with the success log line). -/
def DynamoDB.batchWrite.tryBody (dev : Bool) (table : String)
    (res : SendResult BatchWriteResponse) :
    Except JsError BatchWriteResponse × List String :=
  match res with
  | SendResult.err e => (Except.error (JsError.remote e), [])
  | SendResult.ok r =>
    if (lookupStr r.UnprocessedItems table).isSome then
      (Except.error (JsError.http ⟨"Items unprocessed during the batch writing", 500⟩),
        logIf dev "Unprocessed items:")
    else
      (Except.ok r, logIf dev "All items processed successfully")

/-- The `catch` block of `DynamoDB.batchWrite`: an `HttpError` is rethrown
unchanged (`instanceof HttpError`); anything else becomes a 500. -/
def DynamoDB.batchWrite.handleCatch : JsError → HttpError
  | JsError.http h => h
  | JsError.remote _ => ⟨"Error batch writing items in database", 500⟩

/-- `DynamoDB.batchWrite`: one `BatchWriteItemCommand`, no retries; any
unprocessed items for the table → 500, remote failure → 500. -/
def DynamoDB.batchWrite (dev : Bool) (table : String) (requests : List WriteRequest)
    (send : BatchWriteParams → SendResult BatchWriteResponse) :
    OpResult BatchWriteResponse :=
  let params := DynamoDB.batchWrite.paramsOf table requests
  match DynamoDB.batchWrite.tryBody dev table (send params) with
  | (Except.ok r, logs) => ⟨Except.ok r, [Command.batchWriteItem params], logs⟩
  | (Except.error e, logs) =>
    ⟨Except.error (DynamoDB.batchWrite.handleCatch e), [Command.batchWriteItem params],
      logs ++ logIf dev "Error batch writing items in database: "⟩

/-- The `params` object built by `DynamoDB.update`: condition attached only
when truthy; `ReturnValues` defaults to `ALL_NEW` at the call site. -/
def DynamoDB.update.paramsOf (table : String) (keys : Item) (updateExpression : String)
    (expressionAttributeNames : NameMap) (expressionAttributeValues : Item)
    (condition : Option String) (returnValues : String) : UpdateParams :=
  { TableName := table
    Key := keys
    UpdateExpression := updateExpression
    ExpressionAttributeNames := expressionAttributeNames
    ExpressionAttributeValues := expressionAttributeValues
    ReturnValues := returnValues
    ConditionExpression := if strTruthy condition then condition else none }

/-- `DynamoDB.update`: returns the raw response; a
`ConditionalCheckFailedException` rejection becomes a 404, any other
rejection a 500. -/
def DynamoDB.update (dev : Bool) (table : String) (keys : Item) (updateExpression : String)
    (expressionAttributeNames : NameMap) (expressionAttributeValues : Item)
    (condition : Option String) (returnValues : String)
    (send : UpdateParams → SendResult UpdateItemResponse) : OpResult UpdateItemResponse :=
  let params := DynamoDB.update.paramsOf table keys updateExpression
    expressionAttributeNames expressionAttributeValues condition returnValues
  match send params with
  | SendResult.ok res => ⟨Except.ok res, [Command.updateItem params], []⟩
  | SendResult.err e =>
    if e.name = "ConditionalCheckFailedException" then
      ⟨Except.error ⟨"Condition not met for update operation", 404⟩,
        [Command.updateItem params], logIf dev "Condition not met for update operation"⟩
    else
      ⟨Except.error ⟨"Error updating item in database", 500⟩,
        [Command.updateItem params], logIf dev "Error updating item in database: "⟩

/-- The `params` object built by `DynamoDB.delete`: condition attached only
when truthy. -/
def DynamoDB.delete.paramsOf (table : String) (keys : Item) (condition : Option String) :
    DeleteParams :=
  { TableName := table
    Key := keys
    ConditionExpression := if strTruthy condition then condition else none }

/-- `DynamoDB.delete`: on success returns the keys as given; a
`ConditionalCheckFailedException` rejection becomes a 404, any other
rejection a 500. -/
def DynamoDB.delete (dev : Bool) (table : String) (keys : Item) (condition : Option String)
    (send : DeleteParams → SendResult Unit) : OpResult Item :=
  let params := DynamoDB.delete.paramsOf table keys condition
  match send params with
  | SendResult.ok _ => ⟨Except.ok keys, [Command.deleteItem params], []⟩
  | SendResult.err e =>
    if e.name = "ConditionalCheckFailedException" then
      ⟨Except.error ⟨"Condition not met for delete operation", 404⟩,
        [Command.deleteItem params], logIf dev "Condition not met for delete operation"⟩
    else
      ⟨Except.error ⟨"Error deleting item from database", 500⟩,
        [Command.deleteItem params], logIf dev "Error deleting item from database: "⟩

/-- JavaScript object spread `{...a, ...b}`: keys of `a` in order, values
overridden by `b` where present, followed by the keys of `b` absent from
`a`, in the order of `b`. -/
def jsSpread {α : Type} (a b : List (String × α)) : List (String × α) :=
  a.map (fun p =>
    match lookupStr b p.1 with
    | some v => (p.1, v)
    | none => p)
  ++ b.filter (fun q => (lookupStr a q.1).isNone)

/-- JavaScript property assignment `m[k] = v`: update in place when the key
is present, append otherwise. -/
def jsAssign {α : Type} (m : List (String × α)) (k : String) (v : α) :
    List (String × α) :=
  if (lookupStr m k).isSome then
    m.map (fun p => if p.1 == k then (k, v) else p)
  else
    m ++ [(k, v)]

/-- Placeholder attribute-name synthesis shared by `query` and `scan`: for
each filter-value key, strip its leading sigil and map `#rest ↦ rest`. -/
def filterNames (filterValues : Item) : NameMap :=
  filterValues.map (fun p => ("#" ++ p.1.drop 1, p.1.drop 1))

/-- The `params` object built by `DynamoDB.query`: when both a filter and
filter values are supplied, the values are spread over the key values, the
filter expression is attached, and the synthesized attribute names are
added. -/
def DynamoDB.query.paramsOf (table : String) (condition : String) (keys : Item)
    (filter : Option String) (filterValues : Option Item) : QueryParams :=
  let base : QueryParams :=
    { TableName := table
      IndexName := none
      KeyConditionExpression := condition
      ExpressionAttributeNames := none
      ExpressionAttributeValues := keys
      FilterExpression := none }
  if strTruthy filter && filterValues.isSome then
    { base with
      ExpressionAttributeValues := jsSpread keys (filterValues.getD [])
      FilterExpression := filter
      ExpressionAttributeNames := some (filterNames (filterValues.getD [])) }
  else base

/-- `DynamoDB.query`: one `QueryCommand`; returns the matched items; any
remote failure becomes a 500. -/
def DynamoDB.query (dev : Bool) (table : String) (condition : String) (keys : Item)
    (filter : Option String) (filterValues : Option Item)
    (send : QueryParams → SendResult QueryResponse) : OpResult (List Item) :=
  let params := DynamoDB.query.paramsOf table condition keys filter filterValues
  match send params with
  | SendResult.ok res => ⟨Except.ok res.Items, [Command.queryCmd params], []⟩
  | SendResult.err _ =>
    ⟨Except.error ⟨"Error querying item from database", 500⟩, [Command.queryCmd params],
      logIf dev "Error querying item from database: "⟩

/-- Attribute-name synthesis of `queryByGSI`: spread the caller-supplied
attribute names and assign `#rest ↦ rest` for each filter-value key. -/
def gsiNames (attributeNames : NameMap) (filterValues : Item) : NameMap :=
  filterValues.foldl
    (fun acc p => jsAssign acc ("#" ++ p.1.drop 1) (p.1.drop 1))
    attributeNames

/-- The `params` object built by `DynamoDB.queryByGSI`. -/
def DynamoDB.queryByGSI.paramsOf (table : String) (indexName : String) (condition : String)
    (attributeNames : NameMap) (keys : Item) (filter : Option String)
    (filterValues : Option Item) : QueryParams :=
  let base : QueryParams :=
    { TableName := table
      IndexName := some indexName
      KeyConditionExpression := condition
      ExpressionAttributeNames := some attributeNames
      ExpressionAttributeValues := keys
      FilterExpression := none }
  if strTruthy filter && filterValues.isSome then
    { base with
      ExpressionAttributeValues := jsSpread keys (filterValues.getD [])
      FilterExpression := filter
      ExpressionAttributeNames := some (gsiNames attributeNames (filterValues.getD [])) }
  else base

/-- `DynamoDB.queryByGSI`: one `QueryCommand` against a secondary index; a
`ConditionalCheckFailedException` rejection becomes a 400, any other
rejection a 500. -/
def DynamoDB.queryByGSI (dev : Bool) (table : String) (indexName : String)
    (condition : String) (attributeNames : NameMap) (keys : Item)
    (filter : Option String) (filterValues : Option Item)
    (send : QueryParams → SendResult QueryResponse) : OpResult (List Item) :=
  let params := DynamoDB.queryByGSI.paramsOf table indexName condition attributeNames
    keys filter filterValues
  match send params with
  | SendResult.ok res => ⟨Except.ok res.Items, [Command.queryCmd params], []⟩
  | SendResult.err e =>
    ⟨Except.error ⟨"Error querying by GSI from database",
        if e.name = "ConditionalCheckFailedException" then 400 else 500⟩,
      [Command.queryCmd params], logIf dev "Error querying by GSI:"⟩

/-- The `params` object built by `DynamoDB.scan`: when both a filter and
filter values are supplied, the filter expression, the filter values, and
the synthesized attribute names are attached. -/
def DynamoDB.scan.paramsOf (table : String) (filter : Option String)
    (filterValues : Option Item) : ScanParams :=
  let base : ScanParams :=
    { TableName := table
      FilterExpression := none
      ExpressionAttributeValues := none
      ExpressionAttributeNames := none }
  if strTruthy filter && filterValues.isSome then
    { base with
      FilterExpression := filter
      ExpressionAttributeValues := filterValues
      ExpressionAttributeNames := some (filterNames (filterValues.getD [])) }
  else base

/-- `DynamoDB.scan`: one `ScanCommand`; returns the matched items; any
remote failure becomes a 500. -/
def DynamoDB.scan (dev : Bool) (table : String) (filter : Option String)
    (filterValues : Option Item)
    (send : ScanParams → SendResult ScanResponse) : OpResult (List Item) :=
  let params := DynamoDB.scan.paramsOf table filter filterValues
  match send params with
  | SendResult.ok res => ⟨Except.ok res.Items, [Command.scanCmd params], []⟩
  | SendResult.err _ =>
    ⟨Except.error ⟨"Error scanning item from database", 500⟩, [Command.scanCmd params],
      logIf dev "Error scanning item from database: "⟩

/-- The bare `ScanCommand` parameters built inside `DynamoDB.clearTable`
(`{ TableName: table }`). -/
def DynamoDB.clearTable.scanParamsOf (table : String) : ScanParams :=
  { TableName := table
    FilterExpression := none
    ExpressionAttributeValues := none
    ExpressionAttributeNames := none }

/-- The delete requests built by `DynamoDB.clearTable` from the scanned
items: `{ DeleteRequest: { Key: { id: item.id } } }` for each item, with the
key attribute name `id` hard-coded. -/
def DynamoDB.clearTable.requestsOf (items : List Item) : List WriteRequest :=
  items.map (fun item => WriteRequest.deleteReq [("id", lookupStr item "id")])

/-- `DynamoDB.clearTable`: one full-table scan, then one `batchWrite` of a
delete request per scanned item; any failure (of the scan, or the
`HttpError` thrown by `batchWrite`) is rethrown as a 500. -/
def DynamoDB.clearTable (dev : Bool) (table : String)
    (sendScan : ScanParams → SendResult ScanResponse)
    (sendBatchWrite : BatchWriteParams → SendResult BatchWriteResponse) : OpResult Unit :=
  let scanParams := DynamoDB.clearTable.scanParamsOf table
  match sendScan scanParams with
  | SendResult.err _ =>
    ⟨Except.error ⟨"Error clearing table in database", 500⟩, [Command.scanCmd scanParams],
      logIf dev "Error clearing table in database: "⟩
  | SendResult.ok res =>
    let requests := DynamoDB.clearTable.requestsOf res.Items
    let bw := DynamoDB.batchWrite dev table requests sendBatchWrite
    match bw.result with
    | Except.ok _ => ⟨Except.ok (), Command.scanCmd scanParams :: bw.sent, bw.logs⟩
    | Except.error _ =>
      ⟨Except.error ⟨"Error clearing table in database", 500⟩,
        Command.scanCmd scanParams :: bw.sent,
        bw.logs ++ logIf dev "Error clearing table in database: "⟩


/-- C1: for every call to `set`, a remote send failure named
`ConditionalCheckFailedException` is thrown as a normalized error with
status 409; any other remote send failure is thrown with status 500; and
`set` never returns normally when the remote send fails. -/
theorem C1_set_remote_failure_status
    (dev : Bool) (table : String) (item : Item) (condition : Option String)
    (send : PutItemParams → SendResult Unit) (e : RemoteError)
    (h : send (DynamoDB.set.paramsOf table item condition) = SendResult.err e) :
    (e.name = "ConditionalCheckFailedException" →
      (DynamoDB.set dev table item condition send).result =
        Except.error ⟨"Item already exists in database", 409⟩)
    ∧ (e.name ≠ "ConditionalCheckFailedException" →
      (DynamoDB.set dev table item condition send).result =
        Except.error ⟨"Error setting item in database", 500⟩)
    ∧ (∀ x : Item, (DynamoDB.set dev table item condition send).result ≠ Except.ok x) := by
  by_cases hc : e.name = "ConditionalCheckFailedException" <;>
    simp [DynamoDB.set, h, hc]

/-- Witness for C1: a conditional-check failure on a concrete `set` call
yields status 409. -/
theorem C1_set_remote_failure_status_witness :
    (DynamoDB.set true "t" [("id", "a")] none
        (fun _ => SendResult.err ⟨"ConditionalCheckFailedException"⟩)).result =
      Except.error ⟨"Item already exists in database", 409⟩ :=
  (C1_set_remote_failure_status true "t" [("id", "a")] none
      (fun _ => SendResult.err ⟨"ConditionalCheckFailedException"⟩)
      ⟨"ConditionalCheckFailedException"⟩ rfl).1 rfl

/-- C2: for every call to `get`, a successful remote response without an
item is thrown as a normalized error with status 404, and that 404 is
propagated unchanged by the catch handler (an `HttpError` is rethrown as
itself, not remapped to 500); a failing remote operation is thrown with
status 500. -/
theorem C2_get_absent_404_remote_500
    (dev : Bool) (table : String) (keys : Item)
    (send : GetItemParams → SendResult GetItemResponse) :
    (∀ r : GetItemResponse, send (DynamoDB.get.paramsOf table keys) = SendResult.ok r →
      r.Item = none →
      (DynamoDB.get dev table keys send).result =
        Except.error ⟨"Item not found in database", 404⟩)
    ∧ (∀ e : RemoteError, send (DynamoDB.get.paramsOf table keys) = SendResult.err e →
      (DynamoDB.get dev table keys send).result =
        Except.error ⟨"Error getting item from database", 500⟩)
    ∧ (∀ h : HttpError, DynamoDB.get.handleCatch (JsError.http h) = h) := by
  refine ⟨?_, ?_, ?_⟩
  · intro r hr hitem
    simp [DynamoDB.get, DynamoDB.get.tryBody, DynamoDB.get.handleCatch, hr, hitem]
  · intro e he
    simp [DynamoDB.get, DynamoDB.get.tryBody, DynamoDB.get.handleCatch, he]
  · intro h
    simp [DynamoDB.get.handleCatch]

/-- Witness for C2: a concrete `get` whose remote response has no item
fails with status 404. -/
theorem C2_get_absent_404_remote_500_witness :
    (DynamoDB.get false "t" [("id", "a")]
        (fun _ => SendResult.ok ⟨none⟩)).result =
      Except.error ⟨"Item not found in database", 404⟩ :=
  (C2_get_absent_404_remote_500 false "t" [("id", "a")]
      (fun _ => SendResult.ok ⟨none⟩)).1 ⟨none⟩ rfl rfl

/-- C3: for every call to `update` and every call to `delete`, a remote
failure named `ConditionalCheckFailedException` is thrown as a normalized
error with status 404, and every other remote failure is thrown with
status 500. -/
theorem C3_update_delete_condition_status
    (dev : Bool) (table : String) (keys : Item) (updateExpression : String)
    (names : NameMap) (values : Item) (condition : Option String) (returnValues : String)
    (sendU : UpdateParams → SendResult UpdateItemResponse)
    (dev2 : Bool) (table2 : String) (keys2 : Item) (condition2 : Option String)
    (sendD : DeleteParams → SendResult Unit) :
    (∀ e : RemoteError,
      sendU (DynamoDB.update.paramsOf table keys updateExpression names values
          condition returnValues) = SendResult.err e →
      (e.name = "ConditionalCheckFailedException" →
        (DynamoDB.update dev table keys updateExpression names values condition
            returnValues sendU).result =
          Except.error ⟨"Condition not met for update operation", 404⟩)
      ∧ (e.name ≠ "ConditionalCheckFailedException" →
        (DynamoDB.update dev table keys updateExpression names values condition
            returnValues sendU).result =
          Except.error ⟨"Error updating item in database", 500⟩))
    ∧ (∀ e : RemoteError,
      sendD (DynamoDB.delete.paramsOf table2 keys2 condition2) = SendResult.err e →
      (e.name = "ConditionalCheckFailedException" →
        (DynamoDB.delete dev2 table2 keys2 condition2 sendD).result =
          Except.error ⟨"Condition not met for delete operation", 404⟩)
      ∧ (e.name ≠ "ConditionalCheckFailedException" →
        (DynamoDB.delete dev2 table2 keys2 condition2 sendD).result =
          Except.error ⟨"Error deleting item from database", 500⟩)) := by
  constructor
  · intro e he
    by_cases hc : e.name = "ConditionalCheckFailedException" <;>
      simp [DynamoDB.update, he, hc]
  · intro e he
    by_cases hc : e.name = "ConditionalCheckFailedException" <;>
      simp [DynamoDB.delete, he, hc]

/-- Witness for C3: concrete conditional-check failures on `update` and on
`delete` both yield status 404. -/
theorem C3_update_delete_condition_status_witness :
    (DynamoDB.update false "t" [("id", "a")] "set #n = :n" [("#n", "n")]
        [(":n", "v")] none "ALL_NEW"
        (fun _ => SendResult.err ⟨"ConditionalCheckFailedException"⟩)).result =
      Except.error ⟨"Condition not met for update operation", 404⟩
    ∧ (DynamoDB.delete false "t" [("id", "a")] none
        (fun _ => SendResult.err ⟨"ConditionalCheckFailedException"⟩)).result =
      Except.error ⟨"Condition not met for delete operation", 404⟩ :=
  ⟨((C3_update_delete_condition_status false "t" [("id", "a")] "set #n = :n"
        [("#n", "n")] [(":n", "v")] none "ALL_NEW"
        (fun _ => SendResult.err ⟨"ConditionalCheckFailedException"⟩)
        false "t" [("id", "a")] none
        (fun _ => SendResult.err ⟨"ConditionalCheckFailedException"⟩)).1
      ⟨"ConditionalCheckFailedException"⟩ rfl).1 rfl,
    ((C3_update_delete_condition_status false "t" [("id", "a")] "set #n = :n"
        [("#n", "n")] [(":n", "v")] none "ALL_NEW"
        (fun _ => SendResult.err ⟨"ConditionalCheckFailedException"⟩)
        false "t" [("id", "a")] none
        (fun _ => SendResult.err ⟨"ConditionalCheckFailedException"⟩)).2
      ⟨"ConditionalCheckFailedException"⟩ rfl).1 rfl⟩

/-- C4: for every call to `batchWrite`, a remote response reporting
unprocessed items for the table is thrown as a normalized error with
status 500, propagated unchanged through the catch handler; a failing
remote send is thrown with status 500; and `batchWrite` always sends
exactly one command (it never retries unprocessed items). -/
theorem C4_batchWrite_failure_500
    (dev : Bool) (table : String) (requests : List WriteRequest)
    (send : BatchWriteParams → SendResult BatchWriteResponse) :
    (∀ r : BatchWriteResponse,
      send (DynamoDB.batchWrite.paramsOf table requests) = SendResult.ok r →
      (lookupStr r.UnprocessedItems table).isSome →
      (DynamoDB.batchWrite dev table requests send).result =
        Except.error ⟨"Items unprocessed during the batch writing", 500⟩)
    ∧ (∀ e : RemoteError,
      send (DynamoDB.batchWrite.paramsOf table requests) = SendResult.err e →
      (DynamoDB.batchWrite dev table requests send).result =
        Except.error ⟨"Error batch writing items in database", 500⟩)
    ∧ (∀ h : HttpError, DynamoDB.batchWrite.handleCatch (JsError.http h) = h)
    ∧ (DynamoDB.batchWrite dev table requests send).sent =
        [Command.batchWriteItem (DynamoDB.batchWrite.paramsOf table requests)] := by
  refine ⟨?_, ?_, ?_, ?_⟩
  · intro r hr hu
    simp [DynamoDB.batchWrite, DynamoDB.batchWrite.tryBody,
      DynamoDB.batchWrite.handleCatch, hr, hu]
  · intro e he
    simp [DynamoDB.batchWrite, DynamoDB.batchWrite.tryBody,
      DynamoDB.batchWrite.handleCatch, he]
  · intro h
    simp [DynamoDB.batchWrite.handleCatch]
  · cases hsend : send (DynamoDB.batchWrite.paramsOf table requests) with
    | ok r =>
      by_cases hu : (lookupStr r.UnprocessedItems table).isSome <;>
        simp [DynamoDB.batchWrite, DynamoDB.batchWrite.tryBody, hsend, hu]
    | err e =>
      simp [DynamoDB.batchWrite, DynamoDB.batchWrite.tryBody, hsend]

/-- Witness for C4: a concrete `batchWrite` whose response leaves items
unprocessed for the table fails with status 500. -/
theorem C4_batchWrite_failure_500_witness :
    (DynamoDB.batchWrite false "t" [WriteRequest.deleteReq [("id", some "a")]]
        (fun _ => SendResult.ok
          ⟨[("t", [WriteRequest.deleteReq [("id", some "a")]])]⟩)).result =
      Except.error ⟨"Items unprocessed during the batch writing", 500⟩ :=
  (C4_batchWrite_failure_500 false "t" [WriteRequest.deleteReq [("id", some "a")]]
      (fun _ => SendResult.ok
        ⟨[("t", [WriteRequest.deleteReq [("id", some "a")]])]⟩)).1
    ⟨[("t", [WriteRequest.deleteReq [("id", some "a")]])]⟩ rfl rfl

/-- C5: for every call to `queryByGSI`, a remote failure is thrown as a
normalized error with status 500, except that a failure named
`ConditionalCheckFailedException` is thrown with status 400. -/
theorem C5_queryByGSI_remote_failure_status
    (dev : Bool) (table indexName condition : String) (attributeNames : NameMap)
    (keys : Item) (filter : Option String) (filterValues : Option Item)
    (send : QueryParams → SendResult QueryResponse) (e : RemoteError)
    (h : send (DynamoDB.queryByGSI.paramsOf table indexName condition attributeNames
        keys filter filterValues) = SendResult.err e) :
    (e.name = "ConditionalCheckFailedException" →
      (DynamoDB.queryByGSI dev table indexName condition attributeNames keys filter
          filterValues send).result =
        Except.error ⟨"Error querying by GSI from database", 400⟩)
    ∧ (e.name ≠ "ConditionalCheckFailedException" →
      (DynamoDB.queryByGSI dev table indexName condition attributeNames keys filter
          filterValues send).result =
        Except.error ⟨"Error querying by GSI from database", 500⟩) := by
  by_cases hc : e.name = "ConditionalCheckFailedException" <;>
    simp [DynamoDB.queryByGSI, h, hc]

/-- Witness for C5: a concrete conditional-check failure on `queryByGSI`
yields status 400. -/
theorem C5_queryByGSI_remote_failure_status_witness :
    (DynamoDB.queryByGSI false "t" "gsi" "#n = :n" [("#n", "n")] [(":n", "v")]
        none none
        (fun _ => SendResult.err ⟨"ConditionalCheckFailedException"⟩)).result =
      Except.error ⟨"Error querying by GSI from database", 400⟩ :=
  (C5_queryByGSI_remote_failure_status false "t" "gsi" "#n = :n" [("#n", "n")]
      [(":n", "v")] none none
      (fun _ => SendResult.err ⟨"ConditionalCheckFailedException"⟩)
      ⟨"ConditionalCheckFailedException"⟩ rfl).1 rfl

theorem hashAppend_inj {a b : String} (h : "#" ++ a = "#" ++ b) : a = b := by
  have hd : ("#" ++ a).data = ("#" ++ b).data := congrArg String.data h
  simp [String.data_append] at hd
  exact String.ext hd

theorem lookupStr_nil {α : Type} (k : String) : lookupStr ([] : List (String × α)) k = none := rfl

theorem lookupStr_cons {α : Type} (p : String × α) (m : List (String × α)) (k : String) :
    lookupStr (p :: m) k = if p.1 == k then some p.2 else lookupStr m k := by
  cases h : p.1 == k <;> simp [lookupStr, List.find?_cons, h]

theorem lookupStr_append {α : Type} (xs ys : List (String × α)) (k : String) :
    lookupStr (xs ++ ys) k =
      match lookupStr xs k with
      | some v => some v
      | none => lookupStr ys k := by
  induction xs with
  | nil => simp [lookupStr]
  | cons p xs ih =>
    cases h : p.1 == k <;> simp [lookupStr_cons, h, ih]

theorem lookupStr_spread_map {α : Type} (a b : List (String × α)) (k : String) :
    lookupStr (a.map (fun p =>
        match lookupStr b p.1 with
        | some v => (p.1, v)
        | none => p)) k =
      match lookupStr a k with
      | some v => (match lookupStr b k with | some w => some w | none => some v)
      | none => none := by
  induction a with
  | nil => simp [lookupStr]
  | cons p a ih =>
    cases hpk : p.1 == k with
    | true =>
      have hk : p.1 = k := eq_of_beq hpk
      cases hb : lookupStr b p.1 <;>
        simp [List.map_cons, lookupStr_cons, hb, hpk, hk ▸ hb, hk, ih]
    | false =>
      cases hb : lookupStr b p.1 <;>
        simp [List.map_cons, lookupStr_cons, hb, hpk, ih]

theorem lookupStr_spread_filter {α : Type} (a b : List (String × α)) (k : String) :
    lookupStr (b.filter (fun q => (lookupStr a q.1).isNone)) k =
      match lookupStr a k with
      | some _ => none
      | none => lookupStr b k := by
  induction b with
  | nil => cases lookupStr a k <;> simp [lookupStr]
  | cons q b ih =>
    cases hqk : q.1 == k with
    | true =>
      have hk : q.1 = k := eq_of_beq hqk
      cases hqa : lookupStr a q.1 <;>
        simp [List.filter_cons, hk ▸ hqa, hqa, lookupStr_cons, hqk, ih]
    | false =>
      cases hqa : lookupStr a q.1 <;>
        simp [List.filter_cons, hqa, lookupStr_cons, hqk, ih]

theorem lookupStr_jsSpread {α : Type} (a b : List (String × α)) (k : String) :
    lookupStr (jsSpread a b) k = (lookupStr b k).or (lookupStr a k) := by
  unfold jsSpread
  rw [lookupStr_append, lookupStr_spread_map, lookupStr_spread_filter]
  cases lookupStr a k <;> cases lookupStr b k <;> simp

theorem mem_jsAssign_self {α : Type} (m : List (String × α)) (k : String) (v : α) :
    (k, v) ∈ jsAssign m k v := by
  unfold jsAssign
  by_cases hs : (lookupStr m k).isSome
  · simp only [hs, if_true]
    have hex : ∃ x, (k, x) ∈ m := by simpa [lookupStr] using hs
    obtain ⟨x, hx⟩ := hex
    exact List.mem_map.mpr ⟨(k, x), hx, by simp⟩
  · simp [hs]

theorem mem_jsAssign_ne {α : Type} (m : List (String × α)) (k : String) (v : α)
    (k2 : String) (v2 : α) (h : (k, v) ∈ m) (hne : k2 ≠ k) :
    (k, v) ∈ jsAssign m k2 v2 := by
  unfold jsAssign
  by_cases hs : (lookupStr m k2).isSome
  · simp only [hs, if_true]
    refine List.mem_map.mpr ⟨(k, v), h, ?_⟩
    simp [Ne.symm hne]
  · simp [hs, h]

theorem mem_gsiNames_foldl (fv : Item) :
    ∀ (acc : NameMap) (v : String), ("#" ++ v, v) ∈ acc →
      ("#" ++ v, v) ∈ fv.foldl
        (fun acc p => jsAssign acc ("#" ++ p.1.drop 1) (p.1.drop 1)) acc := by
  induction fv with
  | nil => intro acc v h; exact h
  | cons q fv ih =>
    intro acc v h
    rw [List.foldl_cons]
    apply ih
    by_cases he : ("#" ++ q.1.drop 1) = ("#" ++ v)
    · have hv : q.1.drop 1 = v := hashAppend_inj he
      rw [hv]
      exact mem_jsAssign_self acc ("#" ++ v) v
    · exact mem_jsAssign_ne acc ("#" ++ v) v _ _ h he

theorem mem_gsiNames (an : NameMap) (fv : Item) (p : String × AttrVal) (hp : p ∈ fv) :
    ("#" ++ p.1.drop 1, p.1.drop 1) ∈ gsiNames an fv := by
  unfold gsiNames
  induction fv generalizing an with
  | nil => cases hp
  | cons q fv ih =>
    rcases List.mem_cons.mp hp with hq | hfv
    · subst hq
      rw [List.foldl_cons]
      exact mem_gsiNames_foldl fv _ _
        (mem_jsAssign_self an ("#" ++ p.1.drop 1) (p.1.drop 1))
    · rw [List.foldl_cons]
      exact ih _ hfv

theorem mem_gsiNames_of_caller (an : NameMap) (fv : Item) (q : String × String)
    (hq : q ∈ an) (hnp : ∀ p ∈ fv, ("#" ++ p.1.drop 1) ≠ q.1) :
    q ∈ gsiNames an fv := by
  unfold gsiNames
  induction fv generalizing an with
  | nil => exact hq
  | cons r fv ih =>
    rw [List.foldl_cons]
    refine ih (jsAssign an ("#" ++ r.1.drop 1) (r.1.drop 1)) ?_ ?_
    · exact mem_jsAssign_ne an q.1 q.2 _ _ hq (hnp r (List.mem_cons_self r fv))
    · intro p hp
      exact hnp p (List.mem_cons_of_mem r hp)

theorem DynamoDB.set_sent_eq (dev : Bool) (table : String) (item : Item)
    (cond : Option String) (send : PutItemParams → SendResult Unit) :
    (DynamoDB.set dev table item cond send).sent =
      [Command.putItem (DynamoDB.set.paramsOf table item cond)] := by
  cases hs : send (DynamoDB.set.paramsOf table item cond) with
  | ok r => simp [DynamoDB.set, hs]
  | err e =>
    by_cases hc : e.name = "ConditionalCheckFailedException" <;>
      simp [DynamoDB.set, hs, hc]

theorem DynamoDB.set_result_dev (d1 d2 : Bool) (table : String) (item : Item)
    (cond : Option String) (send : PutItemParams → SendResult Unit) :
    (DynamoDB.set d1 table item cond send).result =
      (DynamoDB.set d2 table item cond send).result := by
  cases hs : send (DynamoDB.set.paramsOf table item cond) with
  | ok r => simp [DynamoDB.set, hs]
  | err e =>
    by_cases hc : e.name = "ConditionalCheckFailedException" <;>
      simp [DynamoDB.set, hs, hc]

theorem DynamoDB.get_sent_eq (dev : Bool) (table : String) (keys : Item)
    (send : GetItemParams → SendResult GetItemResponse) :
    (DynamoDB.get dev table keys send).sent =
      [Command.getItem (DynamoDB.get.paramsOf table keys)] := by
  cases hs : send (DynamoDB.get.paramsOf table keys) with
  | ok r => cases hi : r.Item <;> simp [DynamoDB.get, DynamoDB.get.tryBody, hs, hi]
  | err e => simp [DynamoDB.get, DynamoDB.get.tryBody, hs]

theorem DynamoDB.get_result_dev (d1 d2 : Bool) (table : String) (keys : Item)
    (send : GetItemParams → SendResult GetItemResponse) :
    (DynamoDB.get d1 table keys send).result =
      (DynamoDB.get d2 table keys send).result := by
  cases hs : send (DynamoDB.get.paramsOf table keys) with
  | ok r => cases hi : r.Item <;> simp [DynamoDB.get, DynamoDB.get.tryBody, hs, hi]
  | err e => simp [DynamoDB.get, DynamoDB.get.tryBody, hs]

theorem DynamoDB.batchGet_sent_eq (dev : Bool) (table : String) (keys : List Item)
    (projection : Option String)
    (send : BatchGetParams → SendResult BatchGetResponse) :
    (DynamoDB.batchGet dev table keys projection send).sent =
      [Command.batchGetItem (DynamoDB.batchGet.paramsOf table keys projection)] := by
  cases hs : send (DynamoDB.batchGet.paramsOf table keys projection) <;>
    simp [DynamoDB.batchGet, hs]

theorem DynamoDB.batchGet_result_dev (d1 d2 : Bool) (table : String) (keys : List Item)
    (projection : Option String)
    (send : BatchGetParams → SendResult BatchGetResponse) :
    (DynamoDB.batchGet d1 table keys projection send).result =
      (DynamoDB.batchGet d2 table keys projection send).result := by
  cases hs : send (DynamoDB.batchGet.paramsOf table keys projection) <;>
    simp [DynamoDB.batchGet, hs]

theorem DynamoDB.batchWrite_sent_eq (dev : Bool) (table : String)
    (requests : List WriteRequest)
    (send : BatchWriteParams → SendResult BatchWriteResponse) :
    (DynamoDB.batchWrite dev table requests send).sent =
      [Command.batchWriteItem (DynamoDB.batchWrite.paramsOf table requests)] := by
  cases hs : send (DynamoDB.batchWrite.paramsOf table requests) with
  | ok r =>
    by_cases hu : (lookupStr r.UnprocessedItems table).isSome <;>
      simp [DynamoDB.batchWrite, DynamoDB.batchWrite.tryBody, hs, hu]
  | err e => simp [DynamoDB.batchWrite, DynamoDB.batchWrite.tryBody, hs]

theorem DynamoDB.batchWrite_result_dev (d1 d2 : Bool) (table : String)
    (requests : List WriteRequest)
    (send : BatchWriteParams → SendResult BatchWriteResponse) :
    (DynamoDB.batchWrite d1 table requests send).result =
      (DynamoDB.batchWrite d2 table requests send).result := by
  cases hs : send (DynamoDB.batchWrite.paramsOf table requests) with
  | ok r =>
    by_cases hu : (lookupStr r.UnprocessedItems table).isSome <;>
      simp [DynamoDB.batchWrite, DynamoDB.batchWrite.tryBody, hs, hu]
  | err e => simp [DynamoDB.batchWrite, DynamoDB.batchWrite.tryBody, hs]

theorem DynamoDB.update_result_dev (d1 d2 : Bool) (table : String) (keys : Item)
    (ue : String) (an : NameMap) (av : Item) (cond : Option String) (rv : String)
    (send : UpdateParams → SendResult UpdateItemResponse) :
    (DynamoDB.update d1 table keys ue an av cond rv send).result =
      (DynamoDB.update d2 table keys ue an av cond rv send).result := by
  cases hs : send (DynamoDB.update.paramsOf table keys ue an av cond rv) with
  | ok r => simp [DynamoDB.update, hs]
  | err e =>
    by_cases hc : e.name = "ConditionalCheckFailedException" <;>
      simp [DynamoDB.update, hs, hc]

theorem DynamoDB.update_sent_eq (dev : Bool) (table : String) (keys : Item)
    (ue : String) (an : NameMap) (av : Item) (cond : Option String) (rv : String)
    (send : UpdateParams → SendResult UpdateItemResponse) :
    (DynamoDB.update dev table keys ue an av cond rv send).sent =
      [Command.updateItem (DynamoDB.update.paramsOf table keys ue an av cond rv)] := by
  cases hs : send (DynamoDB.update.paramsOf table keys ue an av cond rv) with
  | ok r => simp [DynamoDB.update, hs]
  | err e =>
    by_cases hc : e.name = "ConditionalCheckFailedException" <;>
      simp [DynamoDB.update, hs, hc]

theorem DynamoDB.delete_result_dev (d1 d2 : Bool) (table : String) (keys : Item)
    (cond : Option String) (send : DeleteParams → SendResult Unit) :
    (DynamoDB.delete d1 table keys cond send).result =
      (DynamoDB.delete d2 table keys cond send).result := by
  cases hs : send (DynamoDB.delete.paramsOf table keys cond) with
  | ok r => simp [DynamoDB.delete, hs]
  | err e =>
    by_cases hc : e.name = "ConditionalCheckFailedException" <;>
      simp [DynamoDB.delete, hs, hc]

theorem DynamoDB.delete_sent_eq (dev : Bool) (table : String) (keys : Item)
    (cond : Option String) (send : DeleteParams → SendResult Unit) :
    (DynamoDB.delete dev table keys cond send).sent =
      [Command.deleteItem (DynamoDB.delete.paramsOf table keys cond)] := by
  cases hs : send (DynamoDB.delete.paramsOf table keys cond) with
  | ok r => simp [DynamoDB.delete, hs]
  | err e =>
    by_cases hc : e.name = "ConditionalCheckFailedException" <;>
      simp [DynamoDB.delete, hs, hc]

theorem DynamoDB.query_result_dev (d1 d2 : Bool) (table condition : String)
    (keys : Item) (filter : Option String) (fv : Option Item)
    (send : QueryParams → SendResult QueryResponse) :
    (DynamoDB.query d1 table condition keys filter fv send).result =
      (DynamoDB.query d2 table condition keys filter fv send).result := by
  cases hs : send (DynamoDB.query.paramsOf table condition keys filter fv) <;>
    simp [DynamoDB.query, hs]

theorem DynamoDB.query_sent_eq (dev : Bool) (table condition : String)
    (keys : Item) (filter : Option String) (fv : Option Item)
    (send : QueryParams → SendResult QueryResponse) :
    (DynamoDB.query dev table condition keys filter fv send).sent =
      [Command.queryCmd (DynamoDB.query.paramsOf table condition keys filter fv)] := by
  cases hs : send (DynamoDB.query.paramsOf table condition keys filter fv) <;>
    simp [DynamoDB.query, hs]

theorem DynamoDB.queryByGSI_result_dev (d1 d2 : Bool) (table indexName condition : String)
    (an : NameMap) (keys : Item) (filter : Option String) (fv : Option Item)
    (send : QueryParams → SendResult QueryResponse) :
    (DynamoDB.queryByGSI d1 table indexName condition an keys filter fv send).result =
      (DynamoDB.queryByGSI d2 table indexName condition an keys filter fv send).result := by
  cases hs : send (DynamoDB.queryByGSI.paramsOf table indexName condition an keys filter fv) <;>
    simp [DynamoDB.queryByGSI, hs]

theorem DynamoDB.queryByGSI_sent_eq (dev : Bool) (table indexName condition : String)
    (an : NameMap) (keys : Item) (filter : Option String) (fv : Option Item)
    (send : QueryParams → SendResult QueryResponse) :
    (DynamoDB.queryByGSI dev table indexName condition an keys filter fv send).sent =
      [Command.queryCmd
        (DynamoDB.queryByGSI.paramsOf table indexName condition an keys filter fv)] := by
  cases hs : send (DynamoDB.queryByGSI.paramsOf table indexName condition an keys filter fv) <;>
    simp [DynamoDB.queryByGSI, hs]

theorem DynamoDB.scan_result_dev (d1 d2 : Bool) (table : String)
    (filter : Option String) (fv : Option Item)
    (send : ScanParams → SendResult ScanResponse) :
    (DynamoDB.scan d1 table filter fv send).result =
      (DynamoDB.scan d2 table filter fv send).result := by
  cases hs : send (DynamoDB.scan.paramsOf table filter fv) <;>
    simp [DynamoDB.scan, hs]

theorem DynamoDB.scan_sent_eq (dev : Bool) (table : String)
    (filter : Option String) (fv : Option Item)
    (send : ScanParams → SendResult ScanResponse) :
    (DynamoDB.scan dev table filter fv send).sent =
      [Command.scanCmd (DynamoDB.scan.paramsOf table filter fv)] := by
  cases hs : send (DynamoDB.scan.paramsOf table filter fv) <;>
    simp [DynamoDB.scan, hs]

theorem DynamoDB.clearTable_result_dev (d1 d2 : Bool) (table : String)
    (sendScan : ScanParams → SendResult ScanResponse)
    (sendBW : BatchWriteParams → SendResult BatchWriteResponse) :
    (DynamoDB.clearTable d1 table sendScan sendBW).result =
      (DynamoDB.clearTable d2 table sendScan sendBW).result := by
  cases hsc : sendScan (DynamoDB.clearTable.scanParamsOf table) with
  | err e => simp [DynamoDB.clearTable, hsc]
  | ok res =>
    have hbw := DynamoDB.batchWrite_result_dev d1 d2 table
      (DynamoDB.clearTable.requestsOf res.Items) sendBW
    simp only [DynamoDB.clearTable, hsc]
    rw [hbw]
    cases hres : (DynamoDB.batchWrite d2 table
        (DynamoDB.clearTable.requestsOf res.Items) sendBW).result <;> simp [hres]

theorem DynamoDB.clearTable_sent_dev (d1 d2 : Bool) (table : String)
    (sendScan : ScanParams → SendResult ScanResponse)
    (sendBW : BatchWriteParams → SendResult BatchWriteResponse) :
    (DynamoDB.clearTable d1 table sendScan sendBW).sent =
      (DynamoDB.clearTable d2 table sendScan sendBW).sent := by
  cases hsc : sendScan (DynamoDB.clearTable.scanParamsOf table) with
  | err e => simp [DynamoDB.clearTable, hsc]
  | ok res =>
    have hbw := DynamoDB.batchWrite_result_dev d1 d2 table
      (DynamoDB.clearTable.requestsOf res.Items) sendBW
    have hs1 := DynamoDB.batchWrite_sent_eq d1 table
      (DynamoDB.clearTable.requestsOf res.Items) sendBW
    have hs2 := DynamoDB.batchWrite_sent_eq d2 table
      (DynamoDB.clearTable.requestsOf res.Items) sendBW
    simp only [DynamoDB.clearTable, hsc]
    rw [hbw]
    cases hres : (DynamoDB.batchWrite d2 table
        (DynamoDB.clearTable.requestsOf res.Items) sendBW).result <;>
      simp [hres, hs1, hs2]

/-- C6: when a truthy filter expression and a non-empty filter-values map
are supplied to `query`, `queryByGSI`, or `scan`, the expression-attribute-
names map contains, for each filter-value key `k`, the synthesized entry
`"#" ++ k.drop 1 ↦ k.drop 1`; the expression-attribute-values map sent to
the remote service is the union of the key-values map and the filter-values
map (filter values taking precedence, and `scan` having no key values); and
in `queryByGSI` the synthesized entries are merged with the caller-supplied
attribute-name map, preserving non-colliding caller entries. -/
theorem C6_filter_value_translation
    (table condition indexName filter : String) (keys vals : Item) (an : NameMap)
    (hf : filter.isEmpty = false) (_hne : vals ≠ []) :
    ((∀ p ∈ vals,
        ("#" ++ p.1.drop 1, p.1.drop 1) ∈
          (DynamoDB.query.paramsOf table condition keys (some filter)
              (some vals)).ExpressionAttributeNames.getD [])
      ∧ (∀ k : String,
        lookupStr (DynamoDB.query.paramsOf table condition keys (some filter)
            (some vals)).ExpressionAttributeValues k =
          (lookupStr vals k).or (lookupStr keys k)))
    ∧ ((∀ p ∈ vals,
        ("#" ++ p.1.drop 1, p.1.drop 1) ∈
          (DynamoDB.queryByGSI.paramsOf table indexName condition an keys (some filter)
              (some vals)).ExpressionAttributeNames.getD [])
      ∧ (∀ q ∈ an, (∀ p ∈ vals, ("#" ++ p.1.drop 1) ≠ q.1) →
        q ∈ (DynamoDB.queryByGSI.paramsOf table indexName condition an keys (some filter)
              (some vals)).ExpressionAttributeNames.getD [])
      ∧ (∀ k : String,
        lookupStr (DynamoDB.queryByGSI.paramsOf table indexName condition an keys
            (some filter) (some vals)).ExpressionAttributeValues k =
          (lookupStr vals k).or (lookupStr keys k)))
    ∧ ((∀ p ∈ vals,
        ("#" ++ p.1.drop 1, p.1.drop 1) ∈
          (DynamoDB.scan.paramsOf table (some filter)
              (some vals)).ExpressionAttributeNames.getD [])
      ∧ (DynamoDB.scan.paramsOf table (some filter)
          (some vals)).ExpressionAttributeValues = some vals) := by
  have hq : DynamoDB.query.paramsOf table condition keys (some filter) (some vals) =
      { TableName := table, IndexName := none, KeyConditionExpression := condition,
        ExpressionAttributeNames := some (filterNames vals),
        ExpressionAttributeValues := jsSpread keys vals,
        FilterExpression := some filter } := by
    simp [DynamoDB.query.paramsOf, strTruthy, hf]
  have hg : DynamoDB.queryByGSI.paramsOf table indexName condition an keys (some filter)
      (some vals) =
      { TableName := table, IndexName := some indexName,
        KeyConditionExpression := condition,
        ExpressionAttributeNames := some (gsiNames an vals),
        ExpressionAttributeValues := jsSpread keys vals,
        FilterExpression := some filter } := by
    simp [DynamoDB.queryByGSI.paramsOf, strTruthy, hf]
  have hsc : DynamoDB.scan.paramsOf table (some filter) (some vals) =
      { TableName := table, FilterExpression := some filter,
        ExpressionAttributeValues := some vals,
        ExpressionAttributeNames := some (filterNames vals) } := by
    simp [DynamoDB.scan.paramsOf, strTruthy, hf]
  refine ⟨⟨?_, ?_⟩, ⟨?_, ?_, ?_⟩, ⟨?_, ?_⟩⟩
  · intro p hp
    rw [hq]
    exact List.mem_map.mpr ⟨p, hp, rfl⟩
  · intro k
    rw [hq]
    simpa using lookupStr_jsSpread keys vals k
  · intro p hp
    rw [hg]
    exact mem_gsiNames an vals p hp
  · intro q hq2 hnp
    rw [hg]
    exact mem_gsiNames_of_caller an vals q hq2 hnp
  · intro k
    rw [hg]
    simpa using lookupStr_jsSpread keys vals k
  · intro p hp
    rw [hsc]
    exact List.mem_map.mpr ⟨p, hp, rfl⟩
  · rw [hsc]

/-- C7: `clearTable` issues exactly one unpaginated full-table scan
followed by exactly one batch write containing one delete request per item
returned by that scan; a scan failure yields a 500 normalized error with no
batch write issued, and a batch-write failure yields a 500 normalized
error. -/
theorem C7_clearTable_scan_then_batch
    (dev : Bool) (table : String)
    (sendScan : ScanParams → SendResult ScanResponse)
    (sendBW : BatchWriteParams → SendResult BatchWriteResponse) :
    (∀ res : ScanResponse,
      sendScan (DynamoDB.clearTable.scanParamsOf table) = SendResult.ok res →
      (DynamoDB.clearTable dev table sendScan sendBW).sent =
        [Command.scanCmd (DynamoDB.clearTable.scanParamsOf table),
          Command.batchWriteItem (DynamoDB.batchWrite.paramsOf table
            (DynamoDB.clearTable.requestsOf res.Items))]
      ∧ (DynamoDB.clearTable.requestsOf res.Items).length = res.Items.length)
    ∧ (∀ e : RemoteError,
      sendScan (DynamoDB.clearTable.scanParamsOf table) = SendResult.err e →
      (DynamoDB.clearTable dev table sendScan sendBW).result =
        Except.error ⟨"Error clearing table in database", 500⟩
      ∧ (DynamoDB.clearTable dev table sendScan sendBW).sent =
        [Command.scanCmd (DynamoDB.clearTable.scanParamsOf table)])
    ∧ (∀ res : ScanResponse,
      sendScan (DynamoDB.clearTable.scanParamsOf table) = SendResult.ok res →
      ∀ err : HttpError,
        (DynamoDB.batchWrite dev table (DynamoDB.clearTable.requestsOf res.Items)
            sendBW).result = Except.error err →
        (DynamoDB.clearTable dev table sendScan sendBW).result =
          Except.error ⟨"Error clearing table in database", 500⟩) := by
  refine ⟨?_, ?_, ?_⟩
  · intro res hres
    have hsent := DynamoDB.batchWrite_sent_eq dev table
      (DynamoDB.clearTable.requestsOf res.Items) sendBW
    constructor
    · simp only [DynamoDB.clearTable, hres]
      cases hbw : (DynamoDB.batchWrite dev table
          (DynamoDB.clearTable.requestsOf res.Items) sendBW).result <;>
        simp [hbw, hsent]
    · simp [DynamoDB.clearTable.requestsOf]
  · intro e he
    simp [DynamoDB.clearTable, he]
  · intro res hres err herr
    simp only [DynamoDB.clearTable, hres]
    simp [herr]

/-- Witness for C7: a concrete two-item scan is followed by exactly one
batch write of two delete requests. -/
theorem C7_clearTable_scan_then_batch_witness :
    (DynamoDB.clearTable false "t"
        (fun _ => SendResult.ok ⟨[[("id", "a")], [("id", "b")]]⟩)
        (fun _ => SendResult.ok ⟨[]⟩)).sent =
      [Command.scanCmd (DynamoDB.clearTable.scanParamsOf "t"),
        Command.batchWriteItem (DynamoDB.batchWrite.paramsOf "t"
          (DynamoDB.clearTable.requestsOf [[("id", "a")], [("id", "b")]]))] :=
  ((C7_clearTable_scan_then_batch false "t"
      (fun _ => SendResult.ok ⟨[[("id", "a")], [("id", "b")]]⟩)
      (fun _ => SendResult.ok ⟨[]⟩)).1
    ⟨[[("id", "a")], [("id", "b")]]⟩ rfl).1

/-- C9: in `query`, `queryByGSI`, and `scan`, the filter expression and
filter values are attached only when both are truthy; otherwise the request
parameters carry no filter expression, no filter values, and no synthesized
attribute names (in `queryByGSI` the caller-supplied attribute names are
passed through unchanged), and each operation sends exactly that request. -/
theorem C9_filter_requires_both
    (table condition indexName : String) (keys : Item) (an : NameMap)
    (filter : Option String) (filterValues : Option Item)
    (h : (strTruthy filter && filterValues.isSome) = false) :
    DynamoDB.query.paramsOf table condition keys filter filterValues =
      { TableName := table, IndexName := none, KeyConditionExpression := condition,
        ExpressionAttributeNames := none, ExpressionAttributeValues := keys,
        FilterExpression := none }
    ∧ DynamoDB.queryByGSI.paramsOf table indexName condition an keys filter filterValues =
      { TableName := table, IndexName := some indexName,
        KeyConditionExpression := condition,
        ExpressionAttributeNames := some an, ExpressionAttributeValues := keys,
        FilterExpression := none }
    ∧ DynamoDB.scan.paramsOf table filter filterValues =
      { TableName := table, FilterExpression := none,
        ExpressionAttributeValues := none, ExpressionAttributeNames := none }
    ∧ (∀ (dev : Bool) (send : QueryParams → SendResult QueryResponse),
      (DynamoDB.query dev table condition keys filter filterValues send).sent =
        [Command.queryCmd (DynamoDB.query.paramsOf table condition keys filter
          filterValues)])
    ∧ (∀ (dev : Bool) (send : QueryParams → SendResult QueryResponse),
      (DynamoDB.queryByGSI dev table indexName condition an keys filter filterValues
          send).sent =
        [Command.queryCmd (DynamoDB.queryByGSI.paramsOf table indexName condition an
          keys filter filterValues)])
    ∧ (∀ (dev : Bool) (send : ScanParams → SendResult ScanResponse),
      (DynamoDB.scan dev table filter filterValues send).sent =
        [Command.scanCmd (DynamoDB.scan.paramsOf table filter filterValues)]) := by
  refine ⟨?_, ?_, ?_, ?_, ?_, ?_⟩
  · simp [DynamoDB.query.paramsOf, h]
  · simp [DynamoDB.queryByGSI.paramsOf, h]
  · simp [DynamoDB.scan.paramsOf, h]
  · intro dev send
    exact DynamoDB.query_sent_eq dev table condition keys filter filterValues send
  · intro dev send
    exact DynamoDB.queryByGSI_sent_eq dev table indexName condition an keys filter
      filterValues send
  · intro dev send
    exact DynamoDB.scan_sent_eq dev table filter filterValues send

/-- Witness for C9: a concrete `scan` call with a filter expression but no
filter values sends a request with no filter fields. -/
theorem C9_filter_requires_both_witness :
    DynamoDB.scan.paramsOf "t" (some "#n = :n") none =
      { TableName := "t", FilterExpression := none,
        ExpressionAttributeValues := none, ExpressionAttributeNames := none } :=
  (C9_filter_requires_both "t" "c" "gsi" [(":id", "v")] [("#n", "n")]
      (some "#n = :n") none rfl).2.2.1

/-- C10: every delete request built by `clearTable` is
`DeleteRequest.Key = { id: item.id }` for some scanned item: the key is
constructed solely from the item's hard-coded `id` attribute and contains
no other attribute. -/
theorem C10_clearTable_hardcoded_id_key (items : List Item) :
    (DynamoDB.clearTable.requestsOf items).length = items.length
    ∧ (∀ item ∈ items,
      WriteRequest.deleteReq [("id", lookupStr item "id")] ∈
        DynamoDB.clearTable.requestsOf items)
    ∧ (∀ r ∈ DynamoDB.clearTable.requestsOf items, ∃ item ∈ items,
      r = WriteRequest.deleteReq [("id", lookupStr item "id")]
      ∧ ∀ (k : String) (v : Option AttrVal),
        (k, v) ∈ [("id", lookupStr item "id")] → k = "id") := by
  refine ⟨?_, ?_, ?_⟩
  · simp [DynamoDB.clearTable.requestsOf]
  · intro item hi
    exact List.mem_map.mpr ⟨item, hi, rfl⟩
  · intro r hr
    obtain ⟨item, hi, hmap⟩ := List.mem_map.mp hr
    refine ⟨item, hi, hmap.symm, ?_⟩
    intro k v hkv
    rcases List.mem_singleton.mp hkv with h
    exact congrArg Prod.fst h

/-- Witness for C10: a concrete scanned item with an extra attribute
yields a delete request keyed only on its `id`. -/
theorem C10_clearTable_hardcoded_id_key_witness :
    WriteRequest.deleteReq [("id", some "a")] ∈
      DynamoDB.clearTable.requestsOf [[("id", "a"), ("name", "x")]] :=
  (C10_clearTable_hardcoded_id_key [[("id", "a"), ("name", "x")]]).2.1
    [("id", "a"), ("name", "x")] (List.mem_singleton.mpr rfl)

/-- Witness for C6: a concrete `scan` call with a filter sends the
filter-values map as the expression-attribute values. -/
theorem C6_filter_value_translation_witness :
    (DynamoDB.scan.paramsOf "t" (some "#n = :n")
        (some [(":n", "v")])).ExpressionAttributeValues = some [(":n", "v")] :=
  (C6_filter_value_translation "t" "c" "gsi" "#n = :n" [(":id", "k")] [(":n", "v")]
      [("#x", "x")] rfl (by simp)).2.2.2

/-- C8: for every one of the adapter's ten operations and every input, the
normalized result (and thrown error) and the sent commands are identical
whether the development-mode flag is true or false; the flag controls only
diagnostic output. -/
theorem C8_dev_flag_is_side_channel
    (table indexName condition updateExpression returnValues : String)
    (item keys values : Item) (cond : Option String) (an : NameMap)
    (filter projection : Option String) (fv : Option Item)
    (keysList : List Item) (requests : List WriteRequest)
    (sendPut : PutItemParams → SendResult Unit)
    (sendGet : GetItemParams → SendResult GetItemResponse)
    (sendBG : BatchGetParams → SendResult BatchGetResponse)
    (sendBW : BatchWriteParams → SendResult BatchWriteResponse)
    (sendUpd : UpdateParams → SendResult UpdateItemResponse)
    (sendDel : DeleteParams → SendResult Unit)
    (sendQ sendG : QueryParams → SendResult QueryResponse)
    (sendScan : ScanParams → SendResult ScanResponse) :
    ((DynamoDB.set true table item cond sendPut).result =
        (DynamoDB.set false table item cond sendPut).result
      ∧ (DynamoDB.set true table item cond sendPut).sent =
        (DynamoDB.set false table item cond sendPut).sent)
    ∧ ((DynamoDB.get true table keys sendGet).result =
        (DynamoDB.get false table keys sendGet).result
      ∧ (DynamoDB.get true table keys sendGet).sent =
        (DynamoDB.get false table keys sendGet).sent)
    ∧ ((DynamoDB.batchGet true table keysList projection sendBG).result =
        (DynamoDB.batchGet false table keysList projection sendBG).result
      ∧ (DynamoDB.batchGet true table keysList projection sendBG).sent =
        (DynamoDB.batchGet false table keysList projection sendBG).sent)
    ∧ ((DynamoDB.batchWrite true table requests sendBW).result =
        (DynamoDB.batchWrite false table requests sendBW).result
      ∧ (DynamoDB.batchWrite true table requests sendBW).sent =
        (DynamoDB.batchWrite false table requests sendBW).sent)
    ∧ ((DynamoDB.update true table keys updateExpression an values cond returnValues
          sendUpd).result =
        (DynamoDB.update false table keys updateExpression an values cond returnValues
          sendUpd).result
      ∧ (DynamoDB.update true table keys updateExpression an values cond returnValues
          sendUpd).sent =
        (DynamoDB.update false table keys updateExpression an values cond returnValues
          sendUpd).sent)
    ∧ ((DynamoDB.delete true table keys cond sendDel).result =
        (DynamoDB.delete false table keys cond sendDel).result
      ∧ (DynamoDB.delete true table keys cond sendDel).sent =
        (DynamoDB.delete false table keys cond sendDel).sent)
    ∧ ((DynamoDB.query true table condition keys filter fv sendQ).result =
        (DynamoDB.query false table condition keys filter fv sendQ).result
      ∧ (DynamoDB.query true table condition keys filter fv sendQ).sent =
        (DynamoDB.query false table condition keys filter fv sendQ).sent)
    ∧ ((DynamoDB.queryByGSI true table indexName condition an keys filter fv
          sendG).result =
        (DynamoDB.queryByGSI false table indexName condition an keys filter fv
          sendG).result
      ∧ (DynamoDB.queryByGSI true table indexName condition an keys filter fv
          sendG).sent =
        (DynamoDB.queryByGSI false table indexName condition an keys filter fv
          sendG).sent)
    ∧ ((DynamoDB.scan true table filter fv sendScan).result =
        (DynamoDB.scan false table filter fv sendScan).result
      ∧ (DynamoDB.scan true table filter fv sendScan).sent =
        (DynamoDB.scan false table filter fv sendScan).sent)
    ∧ ((DynamoDB.clearTable true table sendScan sendBW).result =
        (DynamoDB.clearTable false table sendScan sendBW).result
      ∧ (DynamoDB.clearTable true table sendScan sendBW).sent =
        (DynamoDB.clearTable false table sendScan sendBW).sent) :=
  ⟨⟨DynamoDB.set_result_dev true false table item cond sendPut,
      (DynamoDB.set_sent_eq true table item cond sendPut).trans
        (DynamoDB.set_sent_eq false table item cond sendPut).symm⟩,
    ⟨DynamoDB.get_result_dev true false table keys sendGet,
      (DynamoDB.get_sent_eq true table keys sendGet).trans
        (DynamoDB.get_sent_eq false table keys sendGet).symm⟩,
    ⟨DynamoDB.batchGet_result_dev true false table keysList projection sendBG,
      (DynamoDB.batchGet_sent_eq true table keysList projection sendBG).trans
        (DynamoDB.batchGet_sent_eq false table keysList projection sendBG).symm⟩,
    ⟨DynamoDB.batchWrite_result_dev true false table requests sendBW,
      (DynamoDB.batchWrite_sent_eq true table requests sendBW).trans
        (DynamoDB.batchWrite_sent_eq false table requests sendBW).symm⟩,
    ⟨DynamoDB.update_result_dev true false table keys updateExpression an values cond
        returnValues sendUpd,
      (DynamoDB.update_sent_eq true table keys updateExpression an values cond
          returnValues sendUpd).trans
        (DynamoDB.update_sent_eq false table keys updateExpression an values cond
          returnValues sendUpd).symm⟩,
    ⟨DynamoDB.delete_result_dev true false table keys cond sendDel,
      (DynamoDB.delete_sent_eq true table keys cond sendDel).trans
        (DynamoDB.delete_sent_eq false table keys cond sendDel).symm⟩,
    ⟨DynamoDB.query_result_dev true false table condition keys filter fv sendQ,
      (DynamoDB.query_sent_eq true table condition keys filter fv sendQ).trans
        (DynamoDB.query_sent_eq false table condition keys filter fv sendQ).symm⟩,
    ⟨DynamoDB.queryByGSI_result_dev true false table indexName condition an keys filter
        fv sendG,
      (DynamoDB.queryByGSI_sent_eq true table indexName condition an keys filter fv
          sendG).trans
        (DynamoDB.queryByGSI_sent_eq false table indexName condition an keys filter fv
          sendG).symm⟩,
    ⟨DynamoDB.scan_result_dev true false table filter fv sendScan,
      (DynamoDB.scan_sent_eq true table filter fv sendScan).trans
        (DynamoDB.scan_sent_eq false table filter fv sendScan).symm⟩,
    ⟨DynamoDB.clearTable_result_dev true false table sendScan sendBW,
      DynamoDB.clearTable_sent_dev true false table sendScan sendBW⟩⟩
